import Mathlib

/-!
# Verification of the vmm-vcpu crate's CPUID container and vCPU contract

Shallow embedding of the `vmm-vcpu` Rust crate:

* `src/x86_64/mod.rs` — the `CpuId` wrapper over a `Vec<CpuId2>` buffer
  (construction, `from_entries`, `mut_entries_slice`, `Clone`, `PartialEq`);
* `src/vcpu.rs` — the `Vcpu` trait, its `Result` alias, and `VcpuExit`;
* `src/x86_64/windows.rs` — the `repr(C)` register structures and their
  layout (sizes, alignments, field offsets).

Machine integers are modelled as `Nat` with explicit `% 2^32` where the
source casts to `u32`.  The backing `Vec<CpuId2>` byte buffer is modelled
at entry-slot granularity: a header (`nent` + padding, 8 bytes), a list of
whole 40-byte `CpuIdEntry2` slots, and a count of trailing slack bytes, so
that the byte length of the allocation is recoverable exactly.
-/

namespace VmmVcpu

/-- `kvm_cpuid_entry2` / `CpuIdEntry2`: ten `u32` fields
(`function`, `index`, `flags`, `eax`, `ebx`, `ecx`, `edx`, `padding[3]`),
40 bytes in `repr(C)`. -/
structure CpuIdEntry2 where
  function : Nat
  index : Nat
  flags : Nat
  eax : Nat
  ebx : Nat
  ecx : Nat
  edx : Nat
  padding0 : Nat
  padding1 : Nat
  padding2 : Nat
deriving DecidableEq, Repr

/-- `CpuIdEntry2::default()`: all fields zero. -/
def CpuIdEntry2.default : CpuIdEntry2 :=
  ⟨0, 0, 0, 0, 0, 0, 0, 0, 0, 0⟩

instance : Inhabited CpuIdEntry2 := ⟨CpuIdEntry2.default⟩

/-- `size_of::<CpuId2>()` on the reference platform: `nent : u32` plus
`padding : u32` (the flexible `entries` array contributes no size). -/
def sizeOfCpuId2 : Nat := 8

/-- `size_of::<CpuIdEntry2>()` on the reference platform: ten `u32`s. -/
def sizeOfCpuIdEntry2 : Nat := 40

/-- `2^32`, the modulus of a `u32` cast. -/
def u32Mod : Nat := 4294967296

/-- `vec_with_size_in_bytes::<T>(size_in_bytes)`, element count:
`(size_in_bytes + size_of::<T>() - 1) / size_of::<T>()` elements. -/
def vecLenWithSizeInBytes (tSize sizeInBytes : Nat) : Nat :=
  (sizeInBytes + tSize - 1) / tSize

/-- `vec_with_array_field::<T, F>(count)`, element count: a `Vec<T>` big
enough for `size_of::<T>() + count * size_of::<F>()` bytes. -/
def vecLenWithArrayField (tSize fSize count : Nat) : Nat :=
  vecLenWithSizeInBytes tSize (tSize + count * fSize)

/-- The byte buffer backing a `CpuId`: the `Vec<CpuId2>` reinterpreted as
one `CpuId2` header (8 bytes: `nent : u32`, `padding : u32`) followed by
whole `CpuIdEntry2` slots and then any leftover slack bytes that do not
make up a whole 40-byte entry slot. -/
structure CpuId2Buf where
  nent : Nat
  padding : Nat
  entries : List CpuIdEntry2
  slackBytes : Nat
deriving DecidableEq, Repr

/-- Total byte length of the backing `Vec<CpuId2>` allocation. -/
def CpuId2Buf.byteLen (b : CpuId2Buf) : Nat :=
  sizeOfCpuId2 + sizeOfCpuIdEntry2 * b.entries.length + b.slackBytes

/-- `__IncompleteArrayField::as_slice(len)` (and `as_mut_slice(len)`)
with the bounds of the allocation made explicit: reading `len` whole
entry slots succeeds only when the buffer physically holds that many
whole slots; reading further would be out of bounds. -/
def CpuId2Buf.as_slice (b : CpuId2Buf) (len : Nat) : Option (List CpuIdEntry2) :=
  if len ≤ b.entries.length then some (b.entries.take len) else none

/-- The buffer produced by
`vec_with_array_field::<CpuId2, CpuIdEntry2>(count)`: `rounded_size`
default-initialized (all-zero) `CpuId2` units, reinterpreted into the
header, the whole entry slots and the slack bytes. -/
def allocBuf (count : Nat) : CpuId2Buf :=
  let units := vecLenWithArrayField sizeOfCpuId2 sizeOfCpuIdEntry2 count
  let totalBytes := units * sizeOfCpuId2
  { nent := 0
    padding := 0
    entries := List.replicate ((totalBytes - sizeOfCpuId2) / sizeOfCpuIdEntry2)
      CpuIdEntry2.default
    slackBytes := (totalBytes - sizeOfCpuId2) % sizeOfCpuIdEntry2 }

/-- The `CpuId` wrapper: the backing buffer (`cpuid_vec` in
`src/x86_64/mod.rs`) and the number of entry slots requested at
construction (`allocated_len`). -/
structure CpuId where
  cpuid_vec : CpuId2Buf
  allocated_len : Nat
deriving DecidableEq, Repr

/-- `CpuId::new(array_len)`: allocate via `vec_with_array_field` and set
the header field `nent = array_len as u32`. -/
def CpuId.new (array_len : Nat) : CpuId :=
  let buf := allocBuf array_len
  { cpuid_vec := { buf with nent := array_len % u32Mod }
    allocated_len := array_len }

/-- `<&mut [T]>::copy_from_slice` through
`as_mut_slice(src.length)`: overwrite the first `src.length` slots of
`dst`, keeping the rest. -/
def writeSlice (dst src : List CpuIdEntry2) : List CpuIdEntry2 :=
  src ++ dst.drop src.length

/-- `CpuId::from_entries(entries)`: allocate for `entries.len()` slots,
set `nent = entries.len() as u32`, then copy the entries verbatim into
the trailing region. -/
def CpuId.from_entries (entries : List CpuIdEntry2) : CpuId :=
  let buf := allocBuf entries.length
  let buf := { buf with nent := entries.length % u32Mod }
  let buf := { buf with entries := writeSlice buf.entries entries }
  { cpuid_vec := buf
    allocated_len := entries.length }

/-- `CpuId::mut_entries_slice(&mut self)`: clamp `nent` down to
`allocated_len as u32` when it exceeds `allocated_len`, then expose the
trailing array as a slice of the (possibly clamped) `nent` entries.
Returns the updated container together with the slice (`none` marks an
out-of-bounds read). -/
def CpuId.mut_entries_slice (x : CpuId) : CpuId × Option (List CpuIdEntry2) :=
  let x :=
    if x.cpuid_vec.nent > x.allocated_len then
      { x with cpuid_vec := { x.cpuid_vec with nent := x.allocated_len % u32Mod } }
    else x
  let nent := x.cpuid_vec.nent
  (x, x.cpuid_vec.as_slice nent)

/-- `Clone for CpuId`: allocate a fresh `Vec<CpuId2>` of the same element
count, copy `cpuid_vec.len() * size_of::<CpuId2>()` bytes from the source
buffer into it, and copy `allocated_len`.  The byte-for-byte copy of the
whole allocation reproduces the header, every entry slot and the slack,
so the resulting buffer value is the source buffer value. -/
def CpuId.clone (x : CpuId) : CpuId :=
  { cpuid_vec :=
      { nent := x.cpuid_vec.nent
        padding := x.cpuid_vec.padding
        entries := x.cpuid_vec.entries
        slackBytes := x.cpuid_vec.slackBytes }
    allocated_len := x.allocated_len }

/-- `PartialEq for CpuId`, translated literally: BOTH entry slices are
taken from `self.cpuid_vec[0].entries` — the first with
`self.allocated_len`, the second with `other.allocated_len` — and the
result is `self.allocated_len == other.allocated_len && entries ==
other_entries`. -/
def CpuId.beq (x other : CpuId) : Bool :=
  let entries := x.cpuid_vec.as_slice x.allocated_len
  let other_entries := x.cpuid_vec.as_slice other.allocated_len
  decide (x.allocated_len = other.allocated_len) && decide (entries = other_entries)

/-- `CpuId::as_ptr(&self)`: exposes the start of the backing buffer; the
observation a caller can make through it is the buffer itself.  No field
of the container is modified. -/
def CpuId.as_ptr (x : CpuId) : CpuId2Buf := x.cpuid_vec

/-- `CpuId::as_mut_ptr(&mut self)`: same observation as `as_ptr`; the
call itself modifies nothing. -/
def CpuId.as_mut_ptr (x : CpuId) : CpuId2Buf := x.cpuid_vec

/-- Writing entry `i` through the slice returned by
`mut_entries_slice` (`slice[i] = v`): updates slot `i` of the trailing
region in place. -/
def CpuId.writeEntry (x : CpuId) (i : Nat) (v : CpuIdEntry2) : CpuId :=
  { x with cpuid_vec := { x.cpuid_vec with entries := x.cpuid_vec.entries.set i v } }

/-- A misbehaving backend overwriting the header's `nent` field through
the raw pointer (it is a `u32` field, so the stored value is reduced
mod `2^32`). -/
def CpuId.setNent (x : CpuId) (n : Nat) : CpuId :=
  { x with cpuid_vec := { x.cpuid_vec with nent := n % u32Mod } }

/-- Well-formedness of a `CpuId`: the buffer physically holds at least
`allocated_len` whole entry slots, and the header's `nent` field is a
`u32` value. -/
def CpuId.wf (x : CpuId) : Prop :=
  x.allocated_len ≤ x.cpuid_vec.entries.length ∧ x.cpuid_vec.nent < u32Mod

instance (x : CpuId) : Decidable x.wf := by
  unfold CpuId.wf; infer_instance

/-- The invariant claimed of the buffer size: the byte length of the
backing allocation is at least the header size plus
`allocated_len * size_of(entry)`, rounded up to whole header-sized
units. -/
def roundUpToHeaderUnits (bytes : Nat) : Nat :=
  ((bytes + sizeOfCpuId2 - 1) / sizeOfCpuId2) * sizeOfCpuId2

/-- The buffer-size invariant of a container. -/
def CpuId.sizeInv (x : CpuId) : Prop :=
  roundUpToHeaderUnits (sizeOfCpuId2 + x.allocated_len * sizeOfCpuIdEntry2) ≤
    x.cpuid_vec.byteLen

/-- Containers reachable through the public operations, together with
the `nent` corruption a misbehaving backend can perform through the raw
pointer. -/
inductive CpuId.Reachable : CpuId → Prop
  | mk_new (c : Nat) : CpuId.Reachable (CpuId.new c)
  | mk_from_entries (E : List CpuIdEntry2) : CpuId.Reachable (CpuId.from_entries E)
  | mk_mut (x : CpuId) : CpuId.Reachable x → CpuId.Reachable (x.mut_entries_slice).1
  | mk_clone (x : CpuId) : CpuId.Reachable x → CpuId.Reachable x.clone
  | mk_write (x : CpuId) (i : Nat) (v : CpuIdEntry2) :
      CpuId.Reachable x → CpuId.Reachable (x.writeEntry i v)
  | mk_nent (x : CpuId) (n : Nat) : CpuId.Reachable x → CpuId.Reachable (x.setNent n)

/-- The equality predicate exactly as the specification words it, for
comparison against the source's `PartialEq`: the declared counts (the
header `nent` fields) are equal, and the entry slices, each clamped to
its own declared count, are element-wise equal. -/
def specDeclaredEq (x y : CpuId) : Bool :=
  decide (x.cpuid_vec.nent = y.cpuid_vec.nent) &&
  decide (x.cpuid_vec.entries.take x.cpuid_vec.nent
    = y.cpuid_vec.entries.take y.cpuid_vec.nent)

/-- A concrete entry with `function = 1`. -/
def entryA : CpuIdEntry2 := ⟨1, 0, 0, 0, 0, 0, 0, 0, 0, 0⟩

/-- A concrete entry with `function = 2`. -/
def entryB : CpuIdEntry2 := ⟨2, 0, 0, 0, 0, 0, 0, 0, 0, 0⟩

/-- A concrete container holding `entryA`. -/
def cpuidX : CpuId := CpuId.from_entries [entryA]

/-- A concrete container holding `entryB`. -/
def cpuidY : CpuId := CpuId.from_entries [entryB]

/-! ## Register structures (`src/x86_64/windows.rs`, `src/x86_64.rs`)

Value-level records of the `repr(C)` register structures; machine
integers are `Nat`, fixed-size arrays are `List`s. -/

/-- `StandardRegisters`: 18 `u64` fields. -/
structure StandardRegisters where
  rax : Nat
  rbx : Nat
  rcx : Nat
  rdx : Nat
  rsi : Nat
  rdi : Nat
  rsp : Nat
  rbp : Nat
  r8 : Nat
  r9 : Nat
  r10 : Nat
  r11 : Nat
  r12 : Nat
  r13 : Nat
  r14 : Nat
  r15 : Nat
  rip : Nat
  rflags : Nat
deriving DecidableEq, Repr

/-- `SegmentRegister`: `base : u64`, `limit : u32`, `selector : u16`,
then ten `u8` fields. -/
structure SegmentRegister where
  base : Nat
  limit : Nat
  selector : Nat
  type_ : Nat
  present : Nat
  dpl : Nat
  db : Nat
  s : Nat
  l : Nat
  g : Nat
  avl : Nat
  unusable : Nat
  padding : Nat
deriving DecidableEq, Repr

/-- `DescriptorTable`: `base : u64`, `limit : u16`, `padding : [u16; 3]`. -/
structure DescriptorTable where
  base : Nat
  limit : Nat
  padding : List Nat
deriving DecidableEq, Repr

/-- `SpecialRegisters`: segment registers, descriptor tables, control
registers, EFER, APIC base and the interrupt bitmap (`[u64; 4]`). -/
structure SpecialRegisters where
  cs : SegmentRegister
  ds : SegmentRegister
  es : SegmentRegister
  fs : SegmentRegister
  gs : SegmentRegister
  ss : SegmentRegister
  tr : SegmentRegister
  ldt : SegmentRegister
  gdt : DescriptorTable
  idt : DescriptorTable
  cr0 : Nat
  cr2 : Nat
  cr3 : Nat
  cr4 : Nat
  cr8 : Nat
  efer : Nat
  apic_base : Nat
  interrupt_bitmap : List Nat
deriving DecidableEq, Repr

/-- `FpuState`: FPU/MMX registers, control words, exception state, XMM
registers and MXCSR. -/
structure FpuState where
  fpr : List (List Nat)
  fcw : Nat
  fsw : Nat
  ftwx : Nat
  pad1 : Nat
  last_opcode : Nat
  last_ip : Nat
  last_dp : Nat
  xmm : List (List Nat)
  mxcsr : Nat
  pad2 : Nat
deriving DecidableEq, Repr

/-- `MsrEntry`: `index : u32`, `reserved : u32`, `data : u64`. -/
structure MsrEntry where
  index : Nat
  reserved : Nat
  data : Nat
deriving DecidableEq, Repr

/-- `MsrEntries`: `nmsrs : u32`, `pad : u32` and the trailing entry
array. -/
structure MsrEntries where
  nmsrs : Nat
  pad : Nat
  entries : List MsrEntry
deriving DecidableEq, Repr

/-- `LapicState`: the memory-mapped local-APIC register block
(`c_char` array; 1024 bytes on Unix-style backends, 4096 on
Windows-style ones). -/
structure LapicState where
  regs : List Int
deriving DecidableEq, Repr

/-! ## The `Vcpu` trait (`src/vcpu.rs`) -/

/-- `VcpuExit` for Unix-based (KVM) platforms: every reason `run()` can
return control to the caller.  I/O and MMIO variants carry their
(port-or-address, byte buffer) payloads. -/
inductive VcpuExit where
  | Unknown
  | Exception
  | IoOut (port : Nat) (data : List Nat)
  | IoIn (port : Nat) (data : List Nat)
  | Hypercall
  | Debug
  | Hlt
  | MmioRead (addr : Nat) (data : List Nat)
  | MmioWrite (addr : Nat) (data : List Nat)
  | IrqWindowOpen
  | Shutdown
  | FailEntry
  | Intr
  | SetTpr
  | TprAccess
  | S390Sieic
  | S390Reset
  | Dcr
  | Nmi
  | InternalError
  | Osi
  | PaprHcall
  | S390Ucontrol
  | Watchdog
  | S390Tsch
  | Epr
  | SystemEvent
  | S390Stsi
  | IoapicEoi
  | Hyperv
deriving DecidableEq, Repr

/-- `std::io::Error` as it crosses the contract boundary: a single
error kind, the OS-level I/O failure with its raw OS code. -/
inductive VcpuError where
  | osError (code : Int)
deriving DecidableEq, Repr

/-- `pub type Result<T> = result::Result<T, io::Error>` from
`src/vcpu.rs`. -/
def VcpuResult (α : Type) : Type := Except VcpuError α

/-- The `Vcpu` trait (x86_64 surface): one field per trait method, each
fallible method typed with `VcpuResult`.  `RunContextType` is the
associated run-context type. -/
structure Vcpu (RunContextType : Type) where
  get_regs : VcpuResult StandardRegisters
  set_regs : StandardRegisters → VcpuResult Unit
  get_sregs : VcpuResult SpecialRegisters
  set_sregs : SpecialRegisters → VcpuResult Unit
  get_fpu : VcpuResult FpuState
  set_fpu : FpuState → VcpuResult Unit
  set_cpuid2 : CpuId → VcpuResult Unit
  get_lapic : VcpuResult LapicState
  set_lapic : LapicState → VcpuResult Unit
  get_msrs : MsrEntries → VcpuResult (Int × MsrEntries)
  set_msrs : MsrEntries → VcpuResult Unit
  run : VcpuResult VcpuExit
  get_run_context : RunContextType

/-! ## `repr(C)` layout of the register structures

A layout calculator implementing the C struct layout rules (each field
at the next multiple of its alignment, the struct size rounded up to
the struct alignment), applied to the field lists of the structures in
`src/x86_64/windows.rs` on the reference platform (`u64`: 8 bytes,
align 8; `u32`: 4/4; `u16`: 2/2; `u8`: 1/1; arrays: element layout
repeated). -/

/-- A field descriptor: byte size and alignment. -/
structure CField where
  size : Nat
  align : Nat
deriving DecidableEq, Repr

/-- Round `off` up to the next multiple of `a`. -/
def alignUp (off a : Nat) : Nat := (off + a - 1) / a * a

/-- Byte offsets of the fields of a `repr(C)` struct, starting from
offset `off`. -/
def fieldOffsets : List CField → Nat → List Nat
  | [], _ => []
  | f :: fs, off => alignUp off f.align :: fieldOffsets fs (alignUp off f.align + f.size)

/-- The end offset after laying out all fields from `off`. -/
def structEnd : List CField → Nat → Nat
  | [], off => off
  | f :: fs, off => structEnd fs (alignUp off f.align + f.size)

/-- The alignment of a `repr(C)` struct: the maximum field alignment. -/
def structAlign (fs : List CField) : Nat :=
  fs.foldr (fun f a => max f.align a) 1

/-- The size of a `repr(C)` struct: the end offset rounded up to the
struct alignment. -/
def structSize (fs : List CField) : Nat :=
  alignUp (structEnd fs 0) (structAlign fs)

/-- `u64` on the reference platform. -/
def u64F : CField := ⟨8, 8⟩

/-- `u32` on the reference platform. -/
def u32F : CField := ⟨4, 4⟩

/-- `u16` on the reference platform. -/
def u16F : CField := ⟨2, 2⟩

/-- `u8` on the reference platform. -/
def u8F : CField := ⟨1, 1⟩

/-- A fixed-size array field `[T; n]`. -/
def arrF (elem : CField) (n : Nat) : CField := ⟨elem.size * n, elem.align⟩

/-- `StandardRegisters` fields, in declaration order:
`rax rbx rcx rdx rsi rdi rsp rbp r8 r9 r10 r11 r12 r13 r14 r15 rip
rflags`, all `u64`. -/
def standardRegistersFields : List CField :=
  [u64F, u64F, u64F, u64F, u64F, u64F, u64F, u64F, u64F,
   u64F, u64F, u64F, u64F, u64F, u64F, u64F, u64F, u64F]

/-- `SegmentRegister` fields, in declaration order: `base : u64`,
`limit : u32`, `selector : u16`, then `type_ present dpl db s l g avl
unusable padding`, all `u8`. -/
def segmentRegisterFields : List CField :=
  [u64F, u32F, u16F, u8F, u8F, u8F, u8F, u8F, u8F, u8F, u8F, u8F, u8F]

/-- `FpuState` fields, in declaration order: `fpr : [[u8;16];8]`,
`fcw : u16`, `fsw : u16`, `ftwx : u8`, `pad1 : u8`,
`last_opcode : u16`, `last_ip : u64`, `last_dp : u64`,
`xmm : [[u8;16];16]`, `mxcsr : u32`, `pad2 : u32`. -/
def fpuStateFields : List CField :=
  [arrF (arrF u8F 16) 8, u16F, u16F, u8F, u8F, u16F, u64F, u64F,
   arrF (arrF u8F 16) 16, u32F, u32F]

/-! ## Arithmetic of the over-allocation -/

/-- The trailing region holds at least `c` whole entry slots. -/
theorem le_allocBuf_entries_length (c : Nat) : c ≤ (allocBuf c).entries.length := by
  unfold allocBuf vecLenWithArrayField vecLenWithSizeInBytes sizeOfCpuId2 sizeOfCpuIdEntry2
  simp only [List.length_replicate]
  omega

/-- The byte length of the fresh buffer is exactly the rounded-up
allocation size. -/
theorem allocBuf_byteLen (c : Nat) :
    (allocBuf c).byteLen =
      vecLenWithArrayField sizeOfCpuId2 sizeOfCpuIdEntry2 c * sizeOfCpuId2 := by
  unfold CpuId2Buf.byteLen allocBuf vecLenWithArrayField vecLenWithSizeInBytes
    sizeOfCpuId2 sizeOfCpuIdEntry2
  simp only [List.length_replicate]
  omega

/-- `roundUpToHeaderUnits` of the needed bytes is exactly what the
constructors allocate. -/
theorem roundUp_eq_alloc (c : Nat) :
    roundUpToHeaderUnits (sizeOfCpuId2 + c * sizeOfCpuIdEntry2) =
      vecLenWithArrayField sizeOfCpuId2 sizeOfCpuIdEntry2 c * sizeOfCpuId2 := by
  unfold roundUpToHeaderUnits vecLenWithArrayField vecLenWithSizeInBytes
    sizeOfCpuId2 sizeOfCpuIdEntry2
  omega

/-! ## Basic facts about the container operations -/

theorem u32Mod_pos : 0 < u32Mod := by unfold u32Mod; omega

theorem CpuId.new_cpuid_vec (c : Nat) :
    (CpuId.new c).cpuid_vec = { allocBuf c with nent := c % u32Mod } := rfl

theorem CpuId.new_allocated_len (c : Nat) : (CpuId.new c).allocated_len = c := rfl

theorem CpuId.from_entries_cpuid_vec (E : List CpuIdEntry2) :
    (CpuId.from_entries E).cpuid_vec =
      { allocBuf E.length with
          nent := E.length % u32Mod
          entries := writeSlice (allocBuf E.length).entries E } := rfl

theorem CpuId.from_entries_allocated_len (E : List CpuIdEntry2) :
    (CpuId.from_entries E).allocated_len = E.length := rfl

/-- `mut_entries_slice` unfolded into its two branches. -/
theorem CpuId.mut_entries_slice_eq (x : CpuId) :
    x.mut_entries_slice =
      if x.allocated_len < x.cpuid_vec.nent then
        ({ x with cpuid_vec := { x.cpuid_vec with nent := x.allocated_len % u32Mod } },
          x.cpuid_vec.as_slice (x.allocated_len % u32Mod))
      else
        (x, x.cpuid_vec.as_slice x.cpuid_vec.nent) := by
  unfold CpuId.mut_entries_slice
  split
  · rfl
  · rfl

theorem writeSlice_length (dst src : List CpuIdEntry2) (h : src.length ≤ dst.length) :
    (writeSlice dst src).length = dst.length := by
  unfold writeSlice
  simp only [List.length_append, List.length_drop]
  omega

theorem writeSlice_take (dst src : List CpuIdEntry2) :
    (writeSlice dst src).take src.length = src := by
  unfold writeSlice
  exact List.take_left _ _

/-- `CpuId::new` establishes well-formedness. -/
theorem CpuId.wf_new (c : Nat) : (CpuId.new c).wf :=
  ⟨le_allocBuf_entries_length c, Nat.mod_lt _ u32Mod_pos⟩

/-- `CpuId::from_entries` establishes well-formedness. -/
theorem CpuId.wf_from_entries (E : List CpuIdEntry2) : (CpuId.from_entries E).wf := by
  refine ⟨?_, Nat.mod_lt _ u32Mod_pos⟩
  show E.length ≤ (writeSlice (allocBuf E.length).entries E).length
  rw [writeSlice_length _ _ (le_allocBuf_entries_length E.length)]
  exact le_allocBuf_entries_length E.length

/-- The source `PartialEq` reduces to comparing the two `allocated_len`
fields: both compared slices are read from `self`'s buffer, so once the
lengths agree the slice comparison degenerates to reflexivity. -/
theorem CpuId.beq_iff (x y : CpuId) :
    CpuId.beq x y = true ↔ x.allocated_len = y.allocated_len := by
  unfold CpuId.beq
  simp only [Bool.and_eq_true, decide_eq_true_eq]
  constructor
  · exact fun h => h.1
  · intro h
    exact ⟨h, by rw [h]⟩

/-- Reading entries of a fresh allocation is in bounds and yields the
default-filled prefix. -/
theorem as_slice_allocBuf (c len : Nat) (h : len ≤ (allocBuf c).entries.length) :
    (allocBuf c).as_slice len = some ((allocBuf c).entries.take len) := by
  unfold CpuId2Buf.as_slice
  rw [if_pos h]

/-- `as_slice` reads only the entry slots; the header field is
irrelevant to it. -/
theorem as_slice_set_nent (b : CpuId2Buf) (n len : Nat) :
    ({ b with nent := n } : CpuId2Buf).as_slice len = b.as_slice len := rfl

/-! ## Claim theorems -/

/-- C1 (corrected): in the source `PartialEq for CpuId`, BOTH entry
slices are read from `self`'s buffer (`self.cpuid_vec[0]`), so once the
two `allocated_len` fields agree the slice comparison compares a slice
with itself.  The equality test therefore returns `true` iff the two
allocated capacities are equal; declared counts and entry contents play
no role. -/
theorem claim_C1 (x y : CpuId) :
    CpuId.beq x y = true ↔ x.allocated_len = y.allocated_len :=
  CpuId.beq_iff x y

/-- C1 counterexample: two containers with equal capacity (1), equal
declared counts (1) and different entry contents.  The claim demands
the equality test return `false` (the entry slices, clamped to the
declared counts, differ element-wise); the code returns `true`. -/
theorem claim_C1_counterexample :
    CpuId.beq cpuidX cpuidY = true ∧ specDeclaredEq cpuidX cpuidY = false := by
  decide

/-- C2 (confirmed): when the header's declared count exceeds the
allocated capacity, `mut_entries_slice` performs no out-of-bounds read
(the returned slice stays inside the buffer's whole entry slots) and
its length is at most `allocated_len`; the clamp is evaluated on every
call, for every container satisfying the allocation invariant, not
only at construction. -/
theorem claim_C2 (x : CpuId) (hwf : x.wf) (h : x.allocated_len < x.cpuid_vec.nent) :
    ∃ s, (x.mut_entries_slice).2 = some s ∧ s.length ≤ x.allocated_len := by
  obtain ⟨hlen, hu32⟩ := hwf
  have hmod : x.allocated_len % u32Mod = x.allocated_len :=
    Nat.mod_eq_of_lt (lt_trans h hu32)
  rw [CpuId.mut_entries_slice_eq, if_pos h]
  refine ⟨x.cpuid_vec.entries.take x.allocated_len, ?_, ?_⟩
  · show x.cpuid_vec.as_slice (x.allocated_len % u32Mod) = _
    rw [hmod]
    unfold CpuId2Buf.as_slice
    rw [if_pos hlen]
  · rw [List.length_take]
    omega

/-- C2 witness: the container `new(2)` with its `nent` header forced to
5 by a misbehaving backend. -/
theorem claim_C2_witness :
    ((CpuId.new 2).setNent 5).wf ∧
    ((CpuId.new 2).setNent 5).allocated_len < ((CpuId.new 2).setNent 5).cpuid_vec.nent ∧
    ∃ s, (((CpuId.new 2).setNent 5).mut_entries_slice).2 = some s ∧
      s.length ≤ ((CpuId.new 2).setNent 5).allocated_len :=
  ⟨by decide, by decide, claim_C2 _ (by decide) (by decide)⟩

/-- C3 (corrected): for every capacity `c < 2^32` — in particular for
`c = 0`, where construction succeeds and the slice is empty —
`CpuId::new(c)` yields a container whose `mut_entries_slice` result has
length exactly `c`.  The restriction is forced by the `array_len as
u32` cast: at `c = 2^32` the stored declared count truncates to 0. -/
theorem claim_C3 (c : Nat) (h : c < u32Mod) :
    ∃ s, ((CpuId.new c).mut_entries_slice).2 = some s ∧ s.length = c := by
  have hmod : c % u32Mod = c := Nat.mod_eq_of_lt h
  have hle : c ≤ (allocBuf c).entries.length := le_allocBuf_entries_length c
  rw [CpuId.mut_entries_slice_eq, if_neg ?hneg]
  case hneg =>
    show ¬ c < c % u32Mod
    omega
  refine ⟨(allocBuf c).entries.take c, ?_, ?_⟩
  · show (allocBuf c).as_slice (c % u32Mod) = _
    rw [hmod, as_slice_allocBuf c c hle]
  · rw [List.length_take]
    omega

/-- C3 witness: capacity 0 is legal and the slice is empty; also checked
at capacity 3. -/
theorem claim_C3_witness :
    (0 < u32Mod ∧ ∃ s, ((CpuId.new 0).mut_entries_slice).2 = some s ∧ s.length = 0) ∧
    (3 < u32Mod ∧ ∃ s, ((CpuId.new 3).mut_entries_slice).2 = some s ∧ s.length = 3) :=
  ⟨⟨by decide, claim_C3 0 (by decide)⟩, ⟨by decide, claim_C3 3 (by decide)⟩⟩

/-- C3 counterexample: at capacity `2^32` the `u32` cast truncates the
stored declared count to 0, so `mut_entries_slice` returns the empty
slice, not one of length `2^32`. -/
theorem claim_C3_counterexample :
    ¬ ∃ s, ((CpuId.new u32Mod).mut_entries_slice).2 = some s ∧ s.length = u32Mod := by
  rw [CpuId.mut_entries_slice_eq, if_neg ?hneg]
  case hneg =>
    show ¬ u32Mod < u32Mod % u32Mod
    rw [Nat.mod_self]
    omega
  rintro ⟨s, hs, hlen⟩
  dsimp only at hs
  have h0 : (CpuId.new u32Mod).cpuid_vec.as_slice (CpuId.new u32Mod).cpuid_vec.nent
      = some [] := by
    rw [CpuId.new_cpuid_vec, as_slice_set_nent]
    dsimp only
    rw [Nat.mod_self, as_slice_allocBuf u32Mod 0 (Nat.zero_le _), List.take_zero]
  rw [h0] at hs
  have h1 : ([] : List CpuIdEntry2) = s := Option.some.inj hs
  subst h1
  simp only [List.length_nil] at hlen
  have := u32Mod_pos
  omega

/-- C4 (confirmed): `Clone for CpuId` copies the entire backing buffer
byte for byte — the header, every capacity-allocated entry slot and the
trailing slack, not just the declared-count prefix — together with the
recorded capacity.  Hence the clone's buffer value coincides with the
original's, the clone is equal to the original under the source's
equality test, and a write through the clone's entries slice lands in
the clone's own full copy of the slots; the original container value is
untouched by such a write. -/
theorem claim_C4 (x : CpuId) :
    x.clone.cpuid_vec = x.cpuid_vec ∧
    x.clone.allocated_len = x.allocated_len ∧
    CpuId.beq x.clone x = true ∧
    ∀ i v, (x.clone.writeEntry i v).cpuid_vec.entries = x.cpuid_vec.entries.set i v :=
  ⟨rfl, rfl, (CpuId.beq_iff _ _).mpr rfl, fun _ _ => rfl⟩

/-- C5 (corrected): for every entry sequence of length below `2^32`,
`from_entries` builds a container of capacity `E.length` whose
`mut_entries_slice` result is exactly `E`, in order.  The length bound
is forced by the `entries.len() as u32` cast: a sequence of length
`2^32` stores a declared count of 0 and the slice comes back empty. -/
theorem claim_C5 (E : List CpuIdEntry2) (h : E.length < u32Mod) :
    (CpuId.from_entries E).allocated_len = E.length ∧
    ∃ s, ((CpuId.from_entries E).mut_entries_slice).2 = some s ∧ s = E := by
  refine ⟨rfl, ?_⟩
  have hmod : E.length % u32Mod = E.length := Nat.mod_eq_of_lt h
  have hle : E.length ≤ (allocBuf E.length).entries.length := le_allocBuf_entries_length _
  rw [CpuId.mut_entries_slice_eq, if_neg ?hneg]
  case hneg =>
    show ¬ E.length < E.length % u32Mod
    omega
  refine ⟨E, ?_, rfl⟩
  dsimp only
  rw [CpuId.from_entries_cpuid_vec]
  dsimp only
  rw [hmod]
  unfold CpuId2Buf.as_slice
  dsimp only
  rw [if_pos (by rw [writeSlice_length _ _ hle]; exact hle), writeSlice_take]

/-- C5 witness: a concrete two-entry sequence round-trips through
`from_entries` and `mut_entries_slice`. -/
theorem claim_C5_witness :
    ([entryA, entryB].length < u32Mod) ∧
    ((CpuId.from_entries [entryA, entryB]).allocated_len = [entryA, entryB].length ∧
      ∃ s, ((CpuId.from_entries [entryA, entryB]).mut_entries_slice).2 = some s ∧
        s = [entryA, entryB]) :=
  ⟨by decide, claim_C5 [entryA, entryB] (by decide)⟩

/-- A sequence of exactly `2^32` entries stores a declared count of 0
(the `as u32` cast wraps), so the entries slice comes back empty. -/
theorem from_entries_trunc (E : List CpuIdEntry2) (hE : E.length = u32Mod) :
    ((CpuId.from_entries E).mut_entries_slice).2 = some [] := by
  have hnent : (CpuId.from_entries E).cpuid_vec.nent = 0 := by
    rw [CpuId.from_entries_cpuid_vec]
    dsimp only
    rw [hE, Nat.mod_self]
  rw [CpuId.mut_entries_slice_eq, if_neg (by rw [hnent]; omega)]
  dsimp only
  rw [hnent]
  unfold CpuId2Buf.as_slice
  rw [if_pos (Nat.zero_le _), List.take_zero]

/-- C5 counterexample: a sequence of `2^32` default entries; the
stored declared count truncates to 0 and `mut_entries_slice` returns
the empty slice instead of the sequence. -/
theorem claim_C5_counterexample :
    ¬ ∃ s, ((CpuId.from_entries (List.replicate u32Mod CpuIdEntry2.default)).mut_entries_slice).2
        = some s ∧ s = List.replicate u32Mod CpuIdEntry2.default := by
  rintro ⟨s, hs, hsE⟩
  rw [from_entries_trunc _ (List.length_replicate _ _)] at hs
  have h1 : ([] : List CpuIdEntry2) = s := Option.some.inj hs
  have h2 : (List.replicate u32Mod CpuIdEntry2.default).length = 0 := by
    rw [← hsE, ← h1]
    rfl
  rw [List.length_replicate] at h2
  have := u32Mod_pos
  omega

/-- `byteLen` depends only on the entry slots and the slack, not on the
header fields. -/
theorem byteLen_set_nent (b : CpuId2Buf) (n : Nat) :
    ({ b with nent := n } : CpuId2Buf).byteLen = b.byteLen := rfl

/-- The state returned by `mut_entries_slice` differs from the input at
most in the header's `nent` field. -/
theorem mut_entries_slice_fst (x : CpuId) :
    (x.mut_entries_slice).1.allocated_len = x.allocated_len ∧
    (x.mut_entries_slice).1.cpuid_vec.entries = x.cpuid_vec.entries ∧
    (x.mut_entries_slice).1.cpuid_vec.padding = x.cpuid_vec.padding ∧
    (x.mut_entries_slice).1.cpuid_vec.slackBytes = x.cpuid_vec.slackBytes ∧
    (x.mut_entries_slice).1.cpuid_vec.byteLen = x.cpuid_vec.byteLen := by
  rw [CpuId.mut_entries_slice_eq]
  split
  · exact ⟨rfl, rfl, rfl, rfl, rfl⟩
  · exact ⟨rfl, rfl, rfl, rfl, rfl⟩

/-- A write through the entries slice preserves the buffer's byte
length. -/
theorem writeEntry_byteLen (x : CpuId) (i : Nat) (v : CpuIdEntry2) :
    (x.writeEntry i v).cpuid_vec.byteLen = x.cpuid_vec.byteLen := by
  unfold CpuId.writeEntry CpuId2Buf.byteLen
  dsimp only
  rw [List.length_set]

/-- Both constructors establish the buffer-size invariant (with
equality: the allocation is exactly the rounded-up size). -/
theorem sizeInv_new (c : Nat) : (CpuId.new c).sizeInv := by
  unfold CpuId.sizeInv
  show roundUpToHeaderUnits (sizeOfCpuId2 + c * sizeOfCpuIdEntry2) ≤
    ({ allocBuf c with nent := c % u32Mod } : CpuId2Buf).byteLen
  rw [byteLen_set_nent, allocBuf_byteLen, roundUp_eq_alloc]

theorem sizeInv_from_entries (E : List CpuIdEntry2) : (CpuId.from_entries E).sizeInv := by
  unfold CpuId.sizeInv CpuId2Buf.byteLen
  rw [CpuId.from_entries_cpuid_vec]
  dsimp only
  rw [writeSlice_length _ _ (le_allocBuf_entries_length E.length),
    CpuId.from_entries_allocated_len]
  have h := allocBuf_byteLen E.length
  unfold CpuId2Buf.byteLen at h
  rw [h, roundUp_eq_alloc]

/-- C6 (confirmed): for every container reachable through the public
operations (construction, `from_entries`, `mut_entries_slice`, writes
through the slice, `clone`, and even external `nent` corruption), the
backing buffer's byte length is at least
`size_of(header) + allocated_len * size_of(entry)` rounded up to whole
header-sized units. -/
theorem claim_C6 (x : CpuId) (h : CpuId.Reachable x) : x.sizeInv := by
  induction h with
  | mk_new c => exact sizeInv_new c
  | mk_from_entries E => exact sizeInv_from_entries E
  | mk_mut y _ ih =>
      unfold CpuId.sizeInv at ih ⊢
      rw [(mut_entries_slice_fst y).1, (mut_entries_slice_fst y).2.2.2.2]
      exact ih
  | mk_clone y _ ih => exact ih
  | mk_write y i v _ ih =>
      unfold CpuId.sizeInv at ih ⊢
      rw [writeEntry_byteLen]
      exact ih
  | mk_nent y n _ ih => exact ih

/-- C6 witness: the invariant at a concrete reachable container — a
freshly built `new(2)` corrupted to `nent = 9` and then clamped by
`mut_entries_slice`. -/
theorem claim_C6_witness :
    CpuId.Reachable (((CpuId.new 2).setNent 9).mut_entries_slice).1 ∧
    (((CpuId.new 2).setNent 9).mut_entries_slice).1.sizeInv :=
  ⟨CpuId.Reachable.mk_mut _ (CpuId.Reachable.mk_nent _ 9 (CpuId.Reachable.mk_new 2)),
   claim_C6 _ (CpuId.Reachable.mk_mut _ (CpuId.Reachable.mk_nent _ 9 (CpuId.Reachable.mk_new 2)))⟩

/-- `n % 2^32 = n` precisely when `n < 2^32`. -/
theorem mod_u32_eq_iff (n : Nat) : n % u32Mod = n ↔ n < u32Mod := by
  constructor
  · intro h
    rw [← h]
    exact Nat.mod_lt _ u32Mod_pos
  · exact Nat.mod_eq_of_lt

/-- C9 (confirmed): both constructors store the header's declared count
as the `u32` value `c mod 2^32` while `allocated_len` records the
capacity exactly; the stored count equals the capacity precisely when
it fits in 32 bits. -/
theorem claim_C9 (c : Nat) (E : List CpuIdEntry2) :
    (CpuId.new c).cpuid_vec.nent = c % u32Mod ∧
    (CpuId.new c).allocated_len = c ∧
    ((CpuId.new c).cpuid_vec.nent = c ↔ c < u32Mod) ∧
    (CpuId.from_entries E).cpuid_vec.nent = E.length % u32Mod ∧
    (CpuId.from_entries E).allocated_len = E.length ∧
    ((CpuId.from_entries E).cpuid_vec.nent = E.length ↔ E.length < u32Mod) := by
  refine ⟨rfl, rfl, ?_, rfl, rfl, ?_⟩
  · show c % u32Mod = c ↔ c < u32Mod
    exact mod_u32_eq_iff c
  · show E.length % u32Mod = E.length ↔ E.length < u32Mod
    exact mod_u32_eq_iff E.length

/-- C10 (confirmed): `allocated_len` is written only at construction.
`mut_entries_slice` rewrites at most the header's `nent` field (its
entries, padding and slack are untouched), `as_ptr`/`as_mut_ptr` are
pure observations of the buffer, writes through the entries slice leave
`allocated_len` unchanged, and `clone` copies it verbatim. -/
theorem claim_C10 (x : CpuId) (i : Nat) (v : CpuIdEntry2) :
    (x.mut_entries_slice).1.allocated_len = x.allocated_len ∧
    (x.mut_entries_slice).1.cpuid_vec.entries = x.cpuid_vec.entries ∧
    (x.mut_entries_slice).1.cpuid_vec.padding = x.cpuid_vec.padding ∧
    (x.mut_entries_slice).1.cpuid_vec.slackBytes = x.cpuid_vec.slackBytes ∧
    x.as_ptr = x.cpuid_vec ∧
    x.as_mut_ptr = x.cpuid_vec ∧
    (x.writeEntry i v).allocated_len = x.allocated_len ∧
    x.clone.allocated_len = x.allocated_len := by
  obtain ⟨h1, h2, h3, h4, _⟩ := mut_entries_slice_fst x
  exact ⟨h1, h2, h3, h4, rfl, rfl, rfl, rfl⟩

/-- Every value of the contract's result type is either a success or
carries the single error kind (an OS-level I/O error code). -/
theorem vcpuResult_cases {α : Type} (r : VcpuResult α) :
    (∃ a, r = Except.ok a) ∨ (∃ c, r = Except.error (VcpuError.osError c)) := by
  cases r with
  | ok a => exact Or.inl ⟨a, rfl⟩
  | error e =>
      cases e with
      | osError c => exact Or.inr ⟨c, rfl⟩

/-- C7 (confirmed): every fallible operation of the `Vcpu` contract —
register get/set, CPUID set, MSR get/set, and `run` — returns the
`Result` alias whose error branch carries exactly one error kind, the
OS-level I/O error; and every defined exit reason, guest-fault variants
included, is an `ok`-value of `run`'s result type, never an error
value. -/
theorem claim_C7 :
    ∀ (γ : Type) (V : Vcpu γ),
      ((∃ a, V.run = Except.ok a) ∨ (∃ c, V.run = Except.error (VcpuError.osError c))) ∧
      ((∃ a, V.get_regs = Except.ok a) ∨
          (∃ c, V.get_regs = Except.error (VcpuError.osError c))) ∧
      (∀ regs, (∃ a, V.set_regs regs = Except.ok a) ∨
          (∃ c, V.set_regs regs = Except.error (VcpuError.osError c))) ∧
      ((∃ a, V.get_sregs = Except.ok a) ∨
          (∃ c, V.get_sregs = Except.error (VcpuError.osError c))) ∧
      (∀ sregs, (∃ a, V.set_sregs sregs = Except.ok a) ∨
          (∃ c, V.set_sregs sregs = Except.error (VcpuError.osError c))) ∧
      ((∃ a, V.get_fpu = Except.ok a) ∨
          (∃ c, V.get_fpu = Except.error (VcpuError.osError c))) ∧
      (∀ fpu, (∃ a, V.set_fpu fpu = Except.ok a) ∨
          (∃ c, V.set_fpu fpu = Except.error (VcpuError.osError c))) ∧
      (∀ cpuid, (∃ a, V.set_cpuid2 cpuid = Except.ok a) ∨
          (∃ c, V.set_cpuid2 cpuid = Except.error (VcpuError.osError c))) ∧
      (∀ msrs, (∃ a, V.get_msrs msrs = Except.ok a) ∨
          (∃ c, V.get_msrs msrs = Except.error (VcpuError.osError c))) ∧
      (∀ msrs, (∃ a, V.set_msrs msrs = Except.ok a) ∨
          (∃ c, V.set_msrs msrs = Except.error (VcpuError.osError c))) ∧
      (∀ (x : VcpuExit) (e : VcpuError),
          (Except.ok x : VcpuResult VcpuExit) ≠ Except.error e) := by
  intro γ V
  refine ⟨vcpuResult_cases _, vcpuResult_cases _, fun _ => vcpuResult_cases _,
    vcpuResult_cases _, fun _ => vcpuResult_cases _, vcpuResult_cases _,
    fun _ => vcpuResult_cases _, fun _ => vcpuResult_cases _, fun _ => vcpuResult_cases _,
    fun _ => vcpuResult_cases _, fun x e h => ?_⟩
  exact Except.noConfusion h

/-- C8 (confirmed): on the reference platform, the `repr(C)` layout of
`StandardRegisters` is 144 bytes with `rax` at offset 0 (field index 0)
and `rflags` at offset 136 (field index 17); `SegmentRegister` is 24
bytes; and `FpuState` is 416 bytes with `xmm` at offset 152 (field
index 8) — matching the source's golden layout assertions. -/
theorem claim_C8 :
    structSize standardRegistersFields = 144 ∧
    (fieldOffsets standardRegistersFields 0).get? 0 = some 0 ∧
    (fieldOffsets standardRegistersFields 0).get? 17 = some 136 ∧
    structSize segmentRegisterFields = 24 ∧
    structSize fpuStateFields = 416 ∧
    (fieldOffsets fpuStateFields 0).get? 8 = some 152 := by
  decide
